import Mathlib

/-!
Shallow embedding of the referral-withdrawal core of this repository:

* `src/db/dal/referral_withdrawal_dal.py` — the withdraw-request store
  (`create_withdraw_request`, `get_pending_request_by_user`,
  `get_request_by_id`, `list_requests`, `count_requests`,
  `update_request_status`);
* `src/bot/handlers/user/referral.py` — the user withdraw workflow
  (the `withdraw` action branch of `referral_action_handler`,
  `referral_withdraw_amount_handler`, `referral_withdraw_contact_handler`);
* `src/bot/handlers/admin/referral_withdrawals.py` — the admin review queue
  (`view_withdraw_requests_handler`, `withdraw_request_action_handler`,
  the contact preview of `_format_request_text`).

Monetary amounts (Python floats holding decimal currency values) are
modelled as `ℚ`; timestamps as `Nat`; the database session as an explicit
`DB` state threaded through the operations.  `user_dal` (the balance
ledger) is not under `src/`, so it is modelled from the spec, §4.1.
-/

/-- One row of the `ReferralWithdrawRequest` table
(`id`, `userId`, `amount`, `contact`, `status`, `createdAt`,
`processedAt`, `processedByAdminId`, `adminComment`). -/
structure WithdrawRequest where
  request_id : Nat
  user_id : Nat
  amount : ℚ
  contact : String
  status : String
  created_at : Nat
  processed_at : Option Nat
  processed_by_admin_id : Option Nat
  admin_comment : Option String
deriving DecidableEq, Repr

/-- The persistent state the handlers act on: the withdraw-request table,
the users' referral balances (`user_id`, `referralBalance`; a user exists
iff it has an entry), the next autoincrement id, and the current clock
used for `created_at` / `processed_at`. -/
structure DB where
  requests : List WithdrawRequest
  balances : List (Nat × ℚ)
  next_id : Nat
  now : Nat
deriving DecidableEq, Repr

/-- Embeds `referral_withdrawal_dal.create_withdraw_request`: builds the row,
`session.add` + `flush` (assigning the autoincrement id), and returns it.
There is no duplicate-pending check and no failure path. -/
def create_withdraw_request (db : DB) (user_id : Nat) (amount : ℚ)
    (contact : String) (status : String) : DB × WithdrawRequest :=
  let request : WithdrawRequest :=
    { request_id := db.next_id
      user_id := user_id
      amount := amount
      contact := contact
      status := status
      created_at := db.now
      processed_at := none
      processed_by_admin_id := none
      admin_comment := none }
  ({ db with requests := request :: db.requests, next_id := db.next_id + 1 },
   request)

/-- Descending `created_at` order (`ORDER BY created_at DESC`). -/
def byCreatedDesc (a b : WithdrawRequest) : Prop :=
  b.created_at ≤ a.created_at

instance : DecidableRel byCreatedDesc := fun a b =>
  inferInstanceAs (Decidable (b.created_at ≤ a.created_at))

instance : IsTotal WithdrawRequest byCreatedDesc :=
  ⟨fun a b => Nat.le_total b.created_at a.created_at⟩

instance : IsTrans WithdrawRequest byCreatedDesc :=
  ⟨fun _ _ _ hab hbc => Nat.le_trans hbc hab⟩

/-- Ordering `ORDER BY created_at DESC` applied to a result set. -/
def sortByCreatedDesc (l : List WithdrawRequest) : List WithdrawRequest :=
  List.insertionSort byCreatedDesc l

/-- The status literal `"pending"`. -/
def pendingStatus : String := "pending"

/-- The status literal `"paid"`. -/
def paidStatus : String := "paid"

/-- The status literal `"rejected"`. -/
def rejectedStatus : String := "rejected"

/-- Row predicate of `get_pending_request_by_user`'s WHERE clause. -/
def isPendingOf (user_id : Nat) (r : WithdrawRequest) : Bool :=
  r.user_id == user_id && r.status == pendingStatus

/-- Embeds `referral_withdrawal_dal.get_pending_request_by_user`: WHERE
`user_id` and `status='pending'`, ORDER BY `created_at` DESC, LIMIT 1. -/
def get_pending_request_by_user (db : DB) (user_id : Nat) :
    Option WithdrawRequest :=
  (sortByCreatedDesc (db.requests.filter (isPendingOf user_id))).head?

/-- Embeds `referral_withdrawal_dal.get_request_by_id`: WHERE `request_id`. -/
def get_request_by_id (db : DB) (request_id : Nat) :
    Option WithdrawRequest :=
  db.requests.find? (fun r => r.request_id == request_id)

/-- Embeds `referral_withdrawal_dal.list_requests`: optional status filter
(skipped for a falsy status, i.e. `None` or `""`), ORDER BY `created_at`
DESC, LIMIT `limit` OFFSET `offset` (SQL applies OFFSET before LIMIT). -/
def list_requests (db : DB) (status : Option String)
    (limit offset : Nat) : List WithdrawRequest :=
  let rs :=
    match status with
    | some st =>
        if st = "" then db.requests
        else db.requests.filter (fun r => r.status == st)
    | none => db.requests
  ((sortByCreatedDesc rs).drop offset).take limit

/-- Embeds `referral_withdrawal_dal.count_requests`: COUNT with the same
optional status filter. -/
def count_requests (db : DB) (status : Option String) : Nat :=
  match status with
  | some st =>
      if st = "" then db.requests.length
      else (db.requests.filter (fun r => r.status == st)).length
  | none => db.requests.length

/-- The row rewrite performed by `update_request_status`'s UPDATE:
rows matching `request_id` get the new status and the processed fields;
other rows are untouched.  No condition on the current status. -/
def updateRow (request_id : Nat) (status : String)
    (processed_by_admin_id : Option Nat) (admin_comment : Option String)
    (now : Nat) (r : WithdrawRequest) : WithdrawRequest :=
  if r.request_id == request_id then
    { r with
      status := status
      processed_at := some now
      processed_by_admin_id := processed_by_admin_id
      admin_comment := admin_comment }
  else r

/-- Embeds `referral_withdrawal_dal.update_request_status`: UPDATE ... WHERE
`request_id` RETURNING `request_id`; `None` when no row matched, else the
row re-read through `get_request_by_id`.  The WHERE clause does not test
the current status. -/
def update_request_status (db : DB) (request_id : Nat) (status : String)
    (processed_by_admin_id : Option Nat) (admin_comment : Option String) :
    DB × Option WithdrawRequest :=
  if db.requests.any (fun r => r.request_id == request_id) then
    let db' : DB :=
      { db with
        requests := db.requests.map
          (updateRow request_id status processed_by_admin_id admin_comment
            db.now) }
    (db', get_request_by_id db' request_id)
  else (db, none)

/-- Modelled from the spec: `user_dal.get_referral_balance`
(db/dal/user_dal.py is not under src/).  Spec §3/§4.1: each existing user
has a `referralBalance`; the lookup yields nothing for an unknown user. -/
def get_referral_balance (db : DB) (user_id : Nat) : Option ℚ :=
  (db.balances.find? (fun p => p.1 == user_id)).map (fun p => p.2)

/-- Modelled from the spec: `user_dal.adjust_referral_balance`
(db/dal/user_dal.py is not under src/).  Spec §4.1:
`adjust(userId, delta) -> newBalance | Error`; applies `delta` positive or
negative, fails (`None`) iff the user does not exist, and does not itself
enforce a non-negative floor. -/
def adjust_referral_balance (db : DB) (user_id : Nat) (delta : ℚ) :
    DB × Option ℚ :=
  match db.balances.find? (fun p => p.1 == user_id) with
  | none => (db, none)
  | some p =>
      ({ db with
         balances := db.balances.map
           (fun q => if q.1 == user_id then (q.1, q.2 + delta) else q) },
       some (p.2 + delta))

/-! ### Workflow session state (aiogram FSM context) -/

/-- States `UserReferralWithdrawStates` plus the idle (no) state. -/
inductive WithdrawFSM
  | idle
  | waitingForWithdrawAmount
  | waitingForWithdrawContact
deriving DecidableEq, Repr

/-- The per-user dialog state: the FSM state and the
`referral_withdraw_balance` / `referral_withdraw_min` /
`referral_withdraw_amount` entries of the FSM data dict
(`none` = key absent). -/
structure Session where
  fsm : WithdrawFSM
  referral_withdraw_balance : Option ℚ
  referral_withdraw_min : Option ℚ
  referral_withdraw_amount : Option ℚ
deriving DecidableEq, Repr

/-- Embeds `state.clear()`. -/
def Session.cleared : Session :=
  { fsm := .idle
    referral_withdraw_balance := none
    referral_withdraw_min := none
    referral_withdraw_amount := none }

/-- The messages the user-side workflow can answer with, keyed by the
i18n identifiers used in `referral.py`. -/
inductive UserMsg
  | pendingExists
  | minBalance (min_amount balance : ℚ)
  | amountPrompt (min_amount balance : ℚ)
  | invalidAmount
  | invalidAmountRange (min_amount balance : ℚ)
  | contactPrompt
  | contactInvalid
  | errorTryAgain
  | requestCreated (amount : ℚ)
deriving DecidableEq, Repr

/-- Python `str.strip()`: drop whitespace from both ends.  (Stated over
the character list so that it evaluates in the kernel.) -/
def pyStrip (s : String) : String :=
  String.mk
    (((s.data.dropWhile Char.isWhitespace).reverse.dropWhile
        Char.isWhitespace).reverse)

/-! ### Parsing the amount text

`referral_withdraw_amount_handler` does
`raw = (message.text or "").strip().replace(",", ".")` then `float(raw)`.
`pyFloat` models Python's `float()` on plain signed decimal strings
(optional sign, digits, at most one decimal point). -/

/-- Value of a digit string. -/
def digitsVal (l : List Char) : Nat :=
  l.foldl (fun a c => 10 * a + (c.toNat - 48)) 0

/-- Parse an unsigned decimal: `digits`, `digits.digits`, `digits.` or
`.digits`. -/
def parseUnsignedDecimal (l : List Char) : Option ℚ :=
  let ip := l.takeWhile (fun c => c ≠ '.')
  match l.dropWhile (fun c => c ≠ '.') with
  | [] =>
      if ip ≠ [] ∧ ip.all Char.isDigit then some (digitsVal ip : ℚ)
      else none
  | _ :: fp =>
      if (ip ≠ [] ∨ fp ≠ []) ∧ ip.all Char.isDigit ∧ fp.all Char.isDigit
      then some ((digitsVal ip : ℚ) + (digitsVal fp : ℚ) / 10 ^ fp.length)
      else none

/-- Embeds `float(raw)`, as an `Option ℚ` (`none` = `ValueError`). -/
def pyFloat (s : String) : Option ℚ :=
  match s.data with
  | '-' :: rest => (parseUnsignedDecimal rest).map (fun q => -q)
  | '+' :: rest => parseUnsignedDecimal rest
  | rest => parseUnsignedDecimal rest

/-- Normalization `.strip().replace(",", ".")` applied to the raw text. -/
def normalizeAmountText (s : String) : String :=
  String.mk ((pyStrip s).data.map (fun c => if c = ',' then '.' else c))

/-! ### User-side handlers (`src/bot/handlers/user/referral.py`) -/

/-- The `action == "withdraw"` branch of `referral_action_handler`:
`state.clear()`; refuse when a pending request exists; refuse when
`balance < min`; otherwise snapshot balance and min into the FSM data and
enter `waiting_for_withdraw_amount`.  `min_rub` is
`settings.REFERRAL_WITHDRAW_MIN_RUB`. -/
def referral_withdraw_start (db : DB) (user_id : Nat) (min_rub : ℚ) :
    DB × Session × UserMsg :=
  match get_pending_request_by_user db user_id with
  | some _ => (db, Session.cleared, .pendingExists)
  | none =>
      let balance := (get_referral_balance db user_id).getD 0
      if balance < min_rub then
        (db, Session.cleared, .minBalance min_rub balance)
      else
        (db,
         { fsm := .waitingForWithdrawAmount
           referral_withdraw_balance := some balance
           referral_withdraw_min := some min_rub
           referral_withdraw_amount := none },
         .amountPrompt min_rub balance)

/-- Embeds `referral_withdraw_amount_handler`: normalize and parse the text
(`ValueError` → re-prompt, state unchanged); compare against the snapshot
balance (`data.get(..., 0)`) and min (`data.get(..., 1000.0)`); out of
range → re-prompt, state unchanged; else store the amount and enter
`waiting_for_withdraw_contact`. -/
def referral_withdraw_amount_handler (db : DB) (session : Session)
    (text : String) : DB × Session × UserMsg :=
  match pyFloat (normalizeAmountText text) with
  | none => (db, session, .invalidAmount)
  | some amount =>
      let balance := session.referral_withdraw_balance.getD 0
      let min_amount := session.referral_withdraw_min.getD 1000
      if amount < min_amount ∨ amount > balance then
        (db, session, .invalidAmountRange min_amount balance)
      else
        (db,
         { session with
           referral_withdraw_amount := some amount
           fsm := .waitingForWithdrawContact },
         .contactPrompt)

/-- Embeds `referral_withdraw_contact_handler`: trim the contact and reject
shorter than 5 (state unchanged); re-check for a pending request
(clearing the state when one exists); check `amount <= 0 or
amount > balance` against the *session snapshot* values (state
unchanged on failure); then debit the ledger (`None` → generic error,
state cleared, nothing inserted) and insert the pending request. -/
def referral_withdraw_contact_handler (db : DB) (session : Session)
    (user_id : Nat) (text : String) : DB × Session × UserMsg :=
  let contact := pyStrip text
  if contact.length < 5 then (db, session, .contactInvalid)
  else
    let amount := session.referral_withdraw_amount.getD 0
    let balance := session.referral_withdraw_balance.getD 0
    match get_pending_request_by_user db user_id with
    | some _ => (db, Session.cleared, .pendingExists)
    | none =>
        if amount ≤ 0 ∨ amount > balance then
          (db, session, .invalidAmount)
        else
          match adjust_referral_balance db user_id (-amount) with
          | (db1, none) => (db1, Session.cleared, .errorTryAgain)
          | (db1, some _) =>
              let (db2, _) :=
                create_withdraw_request db1 user_id amount contact
                  pendingStatus
              (db2, Session.cleared, .requestCreated amount)

/-! ### Admin review queue (`src/bot/handlers/admin/referral_withdrawals.py`) -/

/-- The contact preview of `_format_request_text`:
`(req.contact or "").strip()`, truncated to 200 characters plus an
ellipsis when longer. -/
def format_contact_preview (req : WithdrawRequest) : String :=
  let contact_preview := pyStrip req.contact
  if contact_preview.length > 200 then
    String.mk (contact_preview.data.take 200) ++ "…"
  else contact_preview

/-- The data computed by `view_withdraw_requests_handler` for a page:
the pending requests of the page (page size 5), the total pending count,
and the total page count (`(total + 4) // 5` when positive, else 1). -/
def view_withdraw_requests (db : DB) (page : Nat) :
    List WithdrawRequest × Nat × Nat :=
  let page_size := 5
  let total_count := count_requests db (some pendingStatus)
  let total_pages :=
    if total_count > 0 then (total_count + page_size - 1) / page_size else 1
  let requests :=
    list_requests db (some pendingStatus) page_size (page * page_size)
  (requests, total_count, total_pages)

/-- Admin-side outcomes of `withdraw_request_action_handler`, keyed by
the i18n identifiers / answers used there. -/
inductive AdminMsg
  | notFound
  | notPending
  | markedPaid (request_id : Nat)
  | rejected (request_id : Nat)
  | unknownAction
deriving DecidableEq, Repr

/-- The action literal `"pay"`. -/
def payAction : String := "pay"

/-- The action literal `"reject"`. -/
def rejectAction : String := "reject"

/-- Embeds `withdraw_request_action_handler` (after callback parsing): load the
request (`NotFound` when absent), refuse when its status is not
`pending`, then for `pay` update to `paid`, for `reject` update to
`rejected` and credit the amount back to the request's user (refund
failures are logged and ignored). -/
def withdraw_request_action_handler (db : DB) (action : String)
    (request_id : Nat) (admin_id : Option Nat) : DB × AdminMsg :=
  match get_request_by_id db request_id with
  | none => (db, .notFound)
  | some req =>
      if req.status ≠ pendingStatus then (db, .notPending)
      else if action = payAction then
        let (db1, _) :=
          update_request_status db request_id paidStatus admin_id none
        (db1, .markedPaid request_id)
      else if action = rejectAction then
        let (db1, _) :=
          update_request_status db request_id rejectedStatus admin_id none
        let (db2, _) := adjust_referral_balance db1 req.user_id req.amount
        (db2, .rejected request_id)
      else (db, .unknownAction)

/-! ### Concrete fixtures used by counterexamples and witnesses -/

/-- A 5-character contact string. -/
def helloContact : String := "hello"

/-- A pending request of user 7. -/
def pendReq : WithdrawRequest :=
  { request_id := 1, user_id := 7, amount := 50, contact := helloContact
    status := pendingStatus, created_at := 0, processed_at := none
    processed_by_admin_id := none, admin_comment := none }

/-- A store already holding a pending request of user 7. -/
def dbPend : DB :=
  { requests := [pendReq], balances := [(7, 100)], next_id := 2, now := 5 }

/-- A request of user 7 already resolved as paid. -/
def paidReq : WithdrawRequest :=
  { request_id := 1, user_id := 7, amount := 50, contact := helloContact
    status := paidStatus, created_at := 0, processed_at := some 1
    processed_by_admin_id := some 9, admin_comment := none }

/-- A store whose only request is already paid. -/
def dbPaid : DB :=
  { requests := [paidReq], balances := [(7, 0)], next_id := 2, now := 5 }

/-- A store with no requests where user 7 has a zero ledger balance. -/
def dbZero : DB :=
  { requests := [], balances := [(7, 0)], next_id := 1, now := 3 }

/-- A contact-step session whose snapshot balance is 500 and whose
stored amount is 100. -/
def sessSnap100 : Session :=
  { fsm := .waitingForWithdrawContact
    referral_withdraw_balance := some 500
    referral_withdraw_min := some 100
    referral_withdraw_amount := some 100 }

/-- The same session with stored amount 600 (above the snapshot). -/
def sessSnap600 : Session :=
  { sessSnap100 with referral_withdraw_amount := some 600 }

/-- An amount-step session: snapshot balance 500, min 100. -/
def sessAmt : Session :=
  { fsm := .waitingForWithdrawAmount
    referral_withdraw_balance := some 500
    referral_withdraw_min := some 100
    referral_withdraw_amount := none }

/-- The amount text `"-5"`. -/
def amtNeg5 : String := "-5"

/-- The amount text `"99"`. -/
def amt99 : String := "99"

/-- The amount text `"100"`. -/
def amt100 : String := "100"

/-- The amount text `"500"`. -/
def amt500 : String := "500"

/-- The amount text `"500.01"`. -/
def amt50001 : String := "500.01"

/-- The amount text `"100,5"` (comma decimal separator). -/
def amt100comma5 : String := "100,5"

/-- The i-th of twelve test pending requests. -/
def mkReq (i : Nat) : WithdrawRequest :=
  { request_id := i, user_id := 100 + i, amount := 10, contact := helloContact
    status := pendingStatus, created_at := i, processed_at := none
    processed_by_admin_id := none, admin_comment := none }

/-- A store holding twelve pending requests. -/
def db12 : DB :=
  { requests := (List.range 12).map mkReq, balances := [], next_id := 12
    now := 100 }

/-- The empty store. -/
def dbEmpty : DB :=
  { requests := [], balances := [], next_id := 0, now := 0 }

/-- A store with no requests where user 1 holds balance 500. -/
def db500 : DB :=
  { requests := [], balances := [(1, 500)], next_id := 10, now := 0 }

/-- A 250-character contact. -/
def longContact : String := String.mk (List.replicate 250 'a')

/-- A request whose stored contact has 250 characters. -/
def longContactReq : WithdrawRequest :=
  { request_id := 3, user_id := 7, amount := 50, contact := longContact
    status := pendingStatus, created_at := 0, processed_at := none
    processed_by_admin_id := none, admin_comment := none }

/-- Store at withdraw-flow start for the refund identity: user `u`
holding balance `B`, no requests yet. -/
def dbFlow (B : ℚ) (u id0 t : Nat) : DB :=
  { requests := [], balances := [(u, B)], next_id := id0, now := t }

/-- Contact-step session whose snapshot balance is `B` and whose stored
amount is `A`. -/
def sessFlow (B A : ℚ) : Session :=
  { fsm := .waitingForWithdrawContact
    referral_withdraw_balance := some B
    referral_withdraw_min := some A
    referral_withdraw_amount := some A }

/-- A 4-character contact string. -/
def fourContact : String := "abcd"

/-! ### Helper lemmas -/

/-- The rewrite `updateRow` preserves the request id. -/
theorem updateRow_request_id (rid : Nat) (st : String) (aid : Option Nat)
    (cm : Option String) (now : Nat) (r : WithdrawRequest) :
    (updateRow rid st aid cm now r).request_id = r.request_id := by
  unfold updateRow
  split <;> rfl

/-- The rewrite `updateRow` preserves the immutable columns. -/
theorem updateRow_immutable (rid : Nat) (st : String) (aid : Option Nat)
    (cm : Option String) (now : Nat) (r : WithdrawRequest) :
    (updateRow rid st aid cm now r).user_id = r.user_id ∧
    (updateRow rid st aid cm now r).amount = r.amount ∧
    (updateRow rid st aid cm now r).contact = r.contact ∧
    (updateRow rid st aid cm now r).created_at = r.created_at := by
  unfold updateRow
  split <;> exact ⟨rfl, rfl, rfl, rfl⟩

/-- Lookup `find?` by id commutes with the row rewrite of the UPDATE. -/
theorem find?_map_updateRow (l : List WithdrawRequest) (rid : Nat)
    (st : String) (aid : Option Nat) (cm : Option String) (now : Nat) :
    (l.map (updateRow rid st aid cm now)).find?
        (fun r => r.request_id == rid) =
      (l.find? (fun r => r.request_id == rid)).map
        (updateRow rid st aid cm now) := by
  rw [List.find?_map]
  have hp : ((fun r : WithdrawRequest => r.request_id == rid) ∘
        updateRow rid st aid cm now) =
      (fun r : WithdrawRequest => r.request_id == rid) := by
    funext r
    simp [Function.comp, updateRow_request_id]
  rw [hp]

/-- When the id is absent, the lookup is `none`. -/
theorem get_request_by_id_eq_none (db : DB) (rid : Nat)
    (hany : ¬(db.requests.any fun r => r.request_id == rid) = true) :
    get_request_by_id db rid = none := by
  unfold get_request_by_id
  rw [List.find?_eq_none]
  intro x hx hpx
  exact hany (List.any_eq_true.mpr ⟨x, hx, hpx⟩)

/-- Re-reading by id after `update_request_status` sees the rewritten
row (or nothing when the id was absent). -/
theorem get_request_by_id_update (db : DB) (rid : Nat) (st : String)
    (aid : Option Nat) (cm : Option String) :
    get_request_by_id (update_request_status db rid st aid cm).1 rid =
      (get_request_by_id db rid).map (updateRow rid st aid cm db.now) := by
  unfold update_request_status
  split
  · simp only [get_request_by_id]
    exact find?_map_updateRow db.requests rid st aid cm db.now
  · rename_i hany
    rw [get_request_by_id_eq_none db rid hany]
    rfl

/-- The row returned by `update_request_status` is the rewritten row of
the prior lookup. -/
theorem update_request_status_snd (db : DB) (rid : Nat) (st : String)
    (aid : Option Nat) (cm : Option String) :
    (update_request_status db rid st aid cm).2 =
      (get_request_by_id db rid).map (updateRow rid st aid cm db.now) := by
  unfold update_request_status
  split
  · simp only [get_request_by_id]
    exact find?_map_updateRow db.requests rid st aid cm db.now
  · rename_i hany
    rw [get_request_by_id_eq_none db rid hany]
    rfl

/-- The request table after `update_request_status` is the row rewrite
mapped over the old table (an identity when the id is absent). -/
theorem update_request_status_requests (db : DB) (rid : Nat) (st : String)
    (aid : Option Nat) (cm : Option String) :
    (update_request_status db rid st aid cm).1.requests =
      db.requests.map (updateRow rid st aid cm db.now) := by
  unfold update_request_status
  split
  · rfl
  · rename_i hany
    have hfix : ∀ r ∈ db.requests, updateRow rid st aid cm db.now r = r := by
      intro r hr
      unfold updateRow
      split
      · rename_i hid
        exact absurd (List.any_eq_true.mpr ⟨r, hr, hid⟩) hany
      · rfl
    simp only
    calc db.requests
        = db.requests.map id := (List.map_id _).symm
      _ = db.requests.map (updateRow rid st aid cm db.now) :=
          List.map_congr_left (fun r hr => ((hfix r hr).trans rfl).symm)

/-- The operation `update_request_status` leaves balances, `next_id` and the clock
untouched. -/
theorem update_request_status_frame (db : DB) (rid : Nat) (st : String)
    (aid : Option Nat) (cm : Option String) :
    (update_request_status db rid st aid cm).1.balances = db.balances ∧
    (update_request_status db rid st aid cm).1.next_id = db.next_id ∧
    (update_request_status db rid st aid cm).1.now = db.now := by
  unfold update_request_status
  split <;> exact ⟨rfl, rfl, rfl⟩

/-! ### C1 — duplicate-pending enforcement at the storage layer -/

/-- C1 counterexample: `dbPend` already holds a pending request of
user 7, yet `create_withdraw_request` succeeds — it returns a second
`pending` row for user 7 instead of failing with `DuplicatePending`,
leaving two pending requests for the same user in the store. -/
theorem C1_counterexample :
    get_pending_request_by_user dbPend 7 = some pendReq ∧
    (create_withdraw_request dbPend 7 30 helloContact pendingStatus).2.status
      = pendingStatus ∧
    (create_withdraw_request dbPend 7 30 helloContact pendingStatus).2.user_id
      = 7 ∧
    ((create_withdraw_request dbPend 7 30 helloContact
        pendingStatus).1.requests.filter (isPendingOf 7)).length = 2 := by
  refine ⟨by decide, rfl, rfl, by decide⟩

/-- C1 amended: `create_withdraw_request` is an unconditional insert
with no failure path — it never checks for an existing pending request
and always appends a new row — and the at-most-one-pending rule is only
an application-level check-then-insert: `referral_withdraw_contact_handler`
queries `get_pending_request_by_user` first and refuses (clearing the
dialog state) when a pending request exists. -/
theorem C1_amended :
    (∀ db u a c st, create_withdraw_request db u a c st =
      ({ db with
         requests :=
           { request_id := db.next_id, user_id := u, amount := a
             contact := c, status := st, created_at := db.now
             processed_at := none, processed_by_admin_id := none
             admin_comment := none } :: db.requests
         next_id := db.next_id + 1 },
       { request_id := db.next_id, user_id := u, amount := a
         contact := c, status := st, created_at := db.now
         processed_at := none, processed_by_admin_id := none
         admin_comment := none })) ∧
    (∀ db session u text, ¬ (pyStrip text).length < 5 →
      (get_pending_request_by_user db u).isSome = true →
      referral_withdraw_contact_handler db session u text =
        (db, Session.cleared, .pendingExists)) := by
  constructor
  · intro db u a c st
    rfl
  · intro db session u text hlen hpend
    obtain ⟨r, hr⟩ := Option.isSome_iff_exists.mp hpend
    unfold referral_withdraw_contact_handler
    simp [hlen, hr]

/-- C1 witness: the application-level guard of `C1_amended` fires on the
concrete store `dbPend`. -/
theorem C1_witness :
    referral_withdraw_contact_handler dbPend sessSnap100 7 helloContact =
      (dbPend, Session.cleared, .pendingExists) :=
  C1_amended.2 dbPend sessSnap100 7 helloContact (by decide) (by decide)

/-! ### C2 — status-transition guard of the store -/

/-- C2 counterexample: `dbPaid`'s only request is already `paid`
(a terminal state), yet `update_request_status` does not fail with
`NotPending`: it succeeds, moves the request to `rejected` and rewrites
the processed fields a second time. -/
theorem C2_counterexample :
    get_request_by_id dbPaid 1 = some paidReq ∧
    paidReq.status = paidStatus ∧
    (update_request_status dbPaid 1 rejectedStatus (some 11) none).2 =
      some { paidReq with
             status := rejectedStatus, processed_at := some 5
             processed_by_admin_id := some 11, admin_comment := none } ∧
    (get_request_by_id
        (update_request_status dbPaid 1 rejectedStatus (some 11)
          none).1 1).map WithdrawRequest.status = some rejectedStatus := by
  refine ⟨by decide, by decide, by decide, by decide⟩

/-- C2 amended: `update_request_status` returns `None` (`NotFound`)
exactly when no request with the id exists (leaving the store unchanged),
but it carries no `pending` guard: it rewrites status, `processed_at`,
`processed_by_admin_id` and `admin_comment` of the matching row whatever
its current status.  The not-pending protection is only the
application-level check-then-act in `withdraw_request_action_handler`,
which answers `NotPending` and leaves the store unchanged when the loaded
request is not `pending`; in particular a second sequential resolve of
the same request through the handler observes `NotPending`. -/
theorem C2_amended :
    (∀ db rid st aid cm,
      ((update_request_status db rid st aid cm).2 = none ↔
        get_request_by_id db rid = none)) ∧
    (∀ db rid st aid cm, get_request_by_id db rid = none →
      update_request_status db rid st aid cm = (db, none)) ∧
    (∀ db rid st aid cm,
      (update_request_status db rid st aid cm).1.requests =
        db.requests.map (updateRow rid st aid cm db.now)) ∧
    (∀ db act rid aid req, get_request_by_id db rid = some req →
      req.status ≠ pendingStatus →
      withdraw_request_action_handler db act rid aid = (db, .notPending)) ∧
    (∀ db rid aid aid' act' req, get_request_by_id db rid = some req →
      req.status = pendingStatus →
      withdraw_request_action_handler
          (withdraw_request_action_handler db payAction rid aid).1
          act' rid aid' =
        ((withdraw_request_action_handler db payAction rid aid).1,
          .notPending)) := by
  refine ⟨?_, ?_, ?_, ?_, ?_⟩
  · intro db rid st aid cm
    rw [update_request_status_snd]
    exact Option.map_eq_none
  · intro db rid st aid cm hnone
    unfold update_request_status
    split
    · rename_i hany
      obtain ⟨r, hr, hid⟩ := List.any_eq_true.mp hany
      rw [get_request_by_id, List.find?_eq_none] at hnone
      exact absurd hid (hnone r hr)
    · rfl
  · exact update_request_status_requests
  · intro db act rid aid req hreq hst
    unfold withdraw_request_action_handler
    simp [hreq, hst]
  · intro db rid aid aid' act' req hreq hst
    have h1 : withdraw_request_action_handler db payAction rid aid =
        ((update_request_status db rid paidStatus aid none).1,
          .markedPaid rid) := by
      unfold withdraw_request_action_handler
      simp [hreq, hst, payAction]
    rw [h1]
    have h2 : get_request_by_id
        (update_request_status db rid paidStatus aid none).1 rid =
        some (updateRow rid paidStatus aid none db.now req) := by
      rw [get_request_by_id_update, hreq]
      rfl
    have h3 : (updateRow rid paidStatus aid none db.now req).status =
        paidStatus := by
      have hid : (req.request_id == rid) = true := by
        have := List.find?_some hreq
        simpa using this
      unfold updateRow
      rw [hid]
      rfl
    have hne : (updateRow rid paidStatus aid none db.now req).status ≠
        pendingStatus := by
      rw [h3]
      decide
    unfold withdraw_request_action_handler
    rw [h2]
    simp [hne]

/-- C2 witness: a pay followed by a reject of the same concrete request
leaves the second call observing `NotPending`. -/
theorem C2_witness :
    withdraw_request_action_handler
        (withdraw_request_action_handler dbPend payAction 1 (some 9)).1
        rejectAction 1 (some 11) =
      ((withdraw_request_action_handler dbPend payAction 1 (some 9)).1,
        .notPending) :=
  C2_amended.2.2.2.2 dbPend 1 (some 9) (some 11) rejectAction pendReq
    (by decide) (by decide)

/-! ### C3 — atomicity of debit + insert -/

/-- A failed `adjust_referral_balance` has no side effect. -/
theorem adjust_none_frame (db : DB) (u : Nat) (d : ℚ) (db1 : DB)
    (h : adjust_referral_balance db u d = (db1, none)) : db1 = db := by
  unfold adjust_referral_balance at h
  split at h
  · cases h
    rfl
  · cases h

/-- A successful `adjust_referral_balance` only rewrites the user's
balance entry. -/
theorem adjust_some_eq (db : DB) (u : Nat) (d : ℚ) (db1 : DB) (b : ℚ)
    (h : adjust_referral_balance db u d = (db1, some b)) :
    db1 = { db with
            balances := db.balances.map
              (fun q => if q.1 == u then (q.1, q.2 + d) else q) } := by
  unfold adjust_referral_balance at h
  split at h
  · cases h
  · cases h
    rfl

/-- C3: on contact submission the ledger debit and the insertion of the
pending request happen as one unit — the handler either leaves both the
request table and the balances exactly as they were, or appends exactly
one new pending request and debits its amount in the same step — and
when the ledger adjust fails (unknown user) while all checks passed, the
handler reports the generic failure, clears the dialog state, and leaves
the store untouched. -/
theorem C3_debit_insert_atomic :
    (∀ db session u text,
      ((referral_withdraw_contact_handler db session u text).1.requests =
          db.requests ∧
        (referral_withdraw_contact_handler db session u text).1.balances =
          db.balances) ∨
      (∃ a : ℚ,
        a = session.referral_withdraw_amount.getD 0 ∧
        (referral_withdraw_contact_handler db session u text).1.requests =
          { request_id := db.next_id, user_id := u, amount := a
            contact := pyStrip text, status := pendingStatus
            created_at := db.now, processed_at := none
            processed_by_admin_id := none, admin_comment := none }
            :: db.requests ∧
        (referral_withdraw_contact_handler db session u text).1.balances =
          db.balances.map
            (fun q => if q.1 == u then (q.1, q.2 + -a) else q) ∧
        (referral_withdraw_contact_handler db session u text).2.2 =
          .requestCreated a)) ∧
    (∀ db session u text, ¬ (pyStrip text).length < 5 →
      get_pending_request_by_user db u = none →
      ¬(session.referral_withdraw_amount.getD 0 ≤ 0 ∨
        session.referral_withdraw_amount.getD 0 >
          session.referral_withdraw_balance.getD 0) →
      get_referral_balance db u = none →
      referral_withdraw_contact_handler db session u text =
        (db, Session.cleared, .errorTryAgain)) := by
  constructor
  · intro db session u text
    by_cases hlen : (pyStrip text).length < 5
    · have hh : referral_withdraw_contact_handler db session u text =
          (db, session, .contactInvalid) := by
        unfold referral_withdraw_contact_handler
        simp [hlen]
      rw [hh]
      exact Or.inl ⟨rfl, rfl⟩
    · cases hpend : get_pending_request_by_user db u with
      | some r =>
          have hh : referral_withdraw_contact_handler db session u text =
              (db, Session.cleared, .pendingExists) := by
            unfold referral_withdraw_contact_handler
            simp [hlen, hpend]
          rw [hh]
          exact Or.inl ⟨rfl, rfl⟩
      | none =>
          by_cases hrange :
              session.referral_withdraw_amount.getD 0 ≤ 0 ∨
                session.referral_withdraw_amount.getD 0 >
                  session.referral_withdraw_balance.getD 0
          · have hh : referral_withdraw_contact_handler db session u text =
                (db, session, .invalidAmount) := by
              unfold referral_withdraw_contact_handler
              simp [hlen, hpend, hrange]
            rw [hh]
            exact Or.inl ⟨rfl, rfl⟩
          · rcases hadj : adjust_referral_balance db u
                (-(session.referral_withdraw_amount.getD 0)) with ⟨db1, ob⟩
            cases ob with
            | none =>
                have hdb1 := adjust_none_frame _ _ _ _ hadj
                have hh : referral_withdraw_contact_handler db session u
                    text = (db1, Session.cleared, .errorTryAgain) := by
                  unfold referral_withdraw_contact_handler
                  simp [hlen, hpend, hrange, hadj]
                rw [hh, hdb1]
                exact Or.inl ⟨rfl, rfl⟩
            | some b =>
                have hdb1 := adjust_some_eq _ _ _ _ _ hadj
                have hh : referral_withdraw_contact_handler db session u
                    text =
                    ((create_withdraw_request db1 u
                        (session.referral_withdraw_amount.getD 0)
                        (pyStrip text) pendingStatus).1,
                      Session.cleared,
                      .requestCreated
                        (session.referral_withdraw_amount.getD 0)) := by
                  unfold referral_withdraw_contact_handler
                  simp [hlen, hpend, hrange, hadj]
                rw [hh, hdb1]
                exact Or.inr ⟨session.referral_withdraw_amount.getD 0,
                  rfl, rfl, rfl, rfl⟩
  · intro db session u text hlen hpend hrange hbal
    have hfind : db.balances.find? (fun p => p.1 == u) = none := by
      unfold get_referral_balance at hbal
      exact Option.map_eq_none.mp hbal
    have hadj : adjust_referral_balance db u
        (-(session.referral_withdraw_amount.getD 0)) = (db, none) := by
      unfold adjust_referral_balance
      rw [hfind]
    unfold referral_withdraw_contact_handler
    simp [hlen, hpend, hrange, hadj]

/-- C3 witness: with all checks passing but the user unknown to the
ledger, the concrete submission aborts with the generic failure and no
partial effect. -/
theorem C3_witness :
    referral_withdraw_contact_handler dbEmpty sessSnap100 1 helloContact =
      (dbEmpty, Session.cleared, .errorTryAgain) :=
  C3_debit_insert_atomic.2 dbEmpty sessSnap100 1 helloContact
    (by decide) (by decide) (by decide) (by decide)

/-! ### C4 — contact-step re-validation -/

/-- C4 counterexample: (a) with snapshot balance 500 in the session but
current ledger balance 0, a submission of amount 100 is *not* aborted —
the handler creates the request and drives the balance to −100, because
the check uses the session snapshot, not a re-read balance; (b) when the
amount check does fail (amount 600), the session is left in the contact
state instead of being cleared to idle. -/
theorem C4_counterexample :
    get_referral_balance dbZero 7 = some 0 ∧
    get_pending_request_by_user dbZero 7 = none ∧
    (referral_withdraw_contact_handler dbZero sessSnap100 7
        helloContact).2.2 = .requestCreated 100 ∧
    (referral_withdraw_contact_handler dbZero sessSnap100 7
        helloContact).1.requests.length = 1 ∧
    get_referral_balance
      (referral_withdraw_contact_handler dbZero sessSnap100 7
        helloContact).1 7 = some (-100) ∧
    referral_withdraw_contact_handler dbZero sessSnap600 7 helloContact =
      (dbZero, sessSnap600, .invalidAmount) ∧
    sessSnap600.fsm ≠ .idle := by
  have h5 : get_referral_balance
      (referral_withdraw_contact_handler dbZero sessSnap100 7
        helloContact).1 7 = some ((0 : ℚ) + -100) := rfl
  refine ⟨by decide, by decide, by decide, by decide, ?_,
    by decide, by decide⟩
  rw [h5]
  norm_num

/-- C4 amended: after the length check the handler re-validates that no
pending request exists — aborting to idle (state cleared) and creating
nothing when one does — and that `0 < amount ≤ snapshotBalance`, where
the balance is the session snapshot taken at flow entry (not re-read
from the ledger); when that amount check fails the handler reports
`invalidAmount`, creates no request, and stays in the contact state with
the session unchanged. -/
theorem C4_amended :
    (∀ db session u text, ¬ (pyStrip text).length < 5 →
      ∀ r, get_pending_request_by_user db u = some r →
      referral_withdraw_contact_handler db session u text =
        (db, Session.cleared, .pendingExists)) ∧
    (∀ db session u text, ¬ (pyStrip text).length < 5 →
      get_pending_request_by_user db u = none →
      (session.referral_withdraw_amount.getD 0 ≤ 0 ∨
        session.referral_withdraw_amount.getD 0 >
          session.referral_withdraw_balance.getD 0) →
      referral_withdraw_contact_handler db session u text =
        (db, session, .invalidAmount)) := by
  constructor
  · intro db session u text hlen r hr
    unfold referral_withdraw_contact_handler
    simp [hlen, hr]
  · intro db session u text hlen hpend hrange
    unfold referral_withdraw_contact_handler
    simp [hlen, hpend, hrange]

/-- C4 witness: the amount re-check failing on the concrete snapshot
leaves the session un-cleared and the store untouched. -/
theorem C4_witness :
    referral_withdraw_contact_handler dbZero sessSnap600 7 helloContact =
      (dbZero, sessSnap600, .invalidAmount) :=
  C4_amended.2 dbZero sessSnap600 7 helloContact (by decide) (by decide)
    (by decide)

/-! ### C5 — reject refund restores the balance -/

/-- C5: starting from balance `B`, submitting a withdraw request of
amount `A` (with `0 < A ≤ B`) debits the ledger to `B − A`, and an admin
rejecting that request marks it `rejected` and credits `+A` back to the
request's user, restoring the balance to exactly `B`. -/
theorem C5_reject_refund_restores_balance (B A : ℚ) (u aid id0 t : Nat)
    (text : String) (hc : ¬ (pyStrip text).length < 5) (hA : 0 < A)
    (hAB : A ≤ B) :
    (referral_withdraw_contact_handler (dbFlow B u id0 t) (sessFlow B A) u
        text).2.2 = .requestCreated A ∧
    get_referral_balance
        (referral_withdraw_contact_handler (dbFlow B u id0 t) (sessFlow B A)
          u text).1 u = some (B - A) ∧
    (get_request_by_id
        (withdraw_request_action_handler
          (referral_withdraw_contact_handler (dbFlow B u id0 t)
            (sessFlow B A) u text).1 rejectAction id0 (some aid)).1
        id0).map WithdrawRequest.status = some rejectedStatus ∧
    get_referral_balance
        (withdraw_request_action_handler
          (referral_withdraw_contact_handler (dbFlow B u id0 t)
            (sessFlow B A) u text).1 rejectAction id0 (some aid)).1 u =
      some B := by
  have hrange : ¬(A ≤ 0 ∨ A > B) := by
    push_neg
    exact ⟨hA, hAB⟩
  have hpend : get_pending_request_by_user (dbFlow B u id0 t) u = none := rfl
  have hadj : adjust_referral_balance (dbFlow B u id0 t) u (-A) =
      ({ requests := [], balances := [(u, B + -A)], next_id := id0
         now := t }, some (B + -A)) := by
    simp [adjust_referral_balance, dbFlow]
  have hh : referral_withdraw_contact_handler (dbFlow B u id0 t)
      (sessFlow B A) u text =
      ({ requests := [{ request_id := id0, user_id := u, amount := A
                        contact := pyStrip text, status := pendingStatus
                        created_at := t, processed_at := none
                        processed_by_admin_id := none
                        admin_comment := none }]
         balances := [(u, B + -A)], next_id := id0 + 1, now := t },
       Session.cleared, .requestCreated A) := by
    unfold referral_withdraw_contact_handler
    simp [hc, hpend, sessFlow, hrange, hadj, create_withdraw_request]
  rw [hh]
  refine ⟨rfl, ?_, ?_, ?_⟩
  · simp [get_referral_balance, sub_eq_add_neg]
  · simp [withdraw_request_action_handler, get_request_by_id,
      update_request_status, updateRow, adjust_referral_balance,
      rejectAction, payAction, pendingStatus, rejectedStatus]
  · simp [withdraw_request_action_handler, get_request_by_id,
      update_request_status, updateRow, adjust_referral_balance,
      get_referral_balance, rejectAction, payAction, pendingStatus,
      neg_add_cancel_right]

/-- C5 witness: balance 500, request of 100 created and rejected — the
concrete final balance is exactly 500 again. -/
theorem C5_witness :
    get_referral_balance
        (withdraw_request_action_handler
          (referral_withdraw_contact_handler (dbFlow 500 1 10 0)
            (sessFlow 500 100) 1 helloContact).1 rejectAction 10
          (some 9)).1 1 = some 500 :=
  (C5_reject_refund_restores_balance 500 100 1 9 10 0 helloContact
    (by decide) (by decide) (by decide)).2.2.2

/-! ### C6 — amount-step validation -/

/-- A text `float()` cannot parse re-prompts with the invalid-amount
message, leaving state untouched. -/
theorem amount_handler_parse_fail (db : DB) (s : Session) (text : String)
    (h : pyFloat (normalizeAmountText text) = none) :
    referral_withdraw_amount_handler db s text =
      (db, s, .invalidAmount) := by
  unfold referral_withdraw_amount_handler
  simp [h]

/-- A parsed amount below the min or above the snapshot balance
re-prompts with the range message, leaving state untouched. -/
theorem amount_handler_out_of_range (db : DB) (s : Session)
    (text : String) (a : ℚ)
    (h : pyFloat (normalizeAmountText text) = some a)
    (hr : a < s.referral_withdraw_min.getD 1000 ∨
      a > s.referral_withdraw_balance.getD 0) :
    referral_withdraw_amount_handler db s text =
      (db, s, .invalidAmountRange (s.referral_withdraw_min.getD 1000)
        (s.referral_withdraw_balance.getD 0)) := by
  unfold referral_withdraw_amount_handler
  simp only [h]
  rw [if_pos hr]

/-- A parsed amount inside the range is stored and the dialog advances
to the contact step. -/
theorem amount_handler_advance (db : DB) (s : Session) (text : String)
    (a : ℚ) (h : pyFloat (normalizeAmountText text) = some a)
    (hr : ¬(a < s.referral_withdraw_min.getD 1000 ∨
      a > s.referral_withdraw_balance.getD 0)) :
    referral_withdraw_amount_handler db s text =
      (db, { s with referral_withdraw_amount := some a
                    fsm := .waitingForWithdrawContact },
        .contactPrompt) := by
  unfold referral_withdraw_amount_handler
  simp only [h]
  rw [if_neg hr]

/-- C6 counterexample: the text `"-5"` is not parseable as a *positive*
number, so the claim demands the `InvalidFormat` outcome, but the code
parses it as −5 and answers the `OutOfRange` message instead. -/
theorem C6_counterexample :
    pyFloat (normalizeAmountText amtNeg5) = some (-5) ∧
    (referral_withdraw_amount_handler dbEmpty sessAmt amtNeg5).2.2 =
      .invalidAmountRange 100 500 ∧
    UserMsg.invalidAmountRange 100 500 ≠ .invalidAmount := by
  have hp : pyFloat (normalizeAmountText amtNeg5) =
      some (-((5 : ℕ) : ℚ)) := rfl
  have hp5 : pyFloat (normalizeAmountText amtNeg5) = some (-5) := by
    rw [hp]
    norm_num
  refine ⟨hp5, ?_, by decide⟩
  have hh := amount_handler_out_of_range dbEmpty sessAmt amtNeg5 (-5) hp5
    (by left; norm_num [sessAmt])
  rw [hh]
  rfl

/-- C6 amended: commas are normalized to periods and the text parsed as
a (possibly signed) decimal number; an unparseable text fails with the
invalid-amount message and the workflow stays in the amount step; a
parsed amount — positive or not — below `min` or above the snapshot
balance fails with the range message and stays; otherwise the amount is
stored and the workflow advances.  With min=100 and balance=500: 99 is
rejected, 100 and 500 accepted, 500.01 rejected, and `"100,5"` is
accepted as 100.5. -/
theorem C6_amended :
    (∀ db s text, pyFloat (normalizeAmountText text) = none →
      referral_withdraw_amount_handler db s text =
        (db, s, .invalidAmount)) ∧
    (∀ db s text a, pyFloat (normalizeAmountText text) = some a →
      (a < s.referral_withdraw_min.getD 1000 ∨
        a > s.referral_withdraw_balance.getD 0) →
      referral_withdraw_amount_handler db s text =
        (db, s, .invalidAmountRange (s.referral_withdraw_min.getD 1000)
          (s.referral_withdraw_balance.getD 0))) ∧
    (∀ db s text a, pyFloat (normalizeAmountText text) = some a →
      ¬(a < s.referral_withdraw_min.getD 1000 ∨
        a > s.referral_withdraw_balance.getD 0) →
      referral_withdraw_amount_handler db s text =
        (db, { s with referral_withdraw_amount := some a
                      fsm := .waitingForWithdrawContact },
          .contactPrompt)) ∧
    referral_withdraw_amount_handler dbEmpty sessAmt amt99 =
      (dbEmpty, sessAmt, .invalidAmountRange 100 500) ∧
    referral_withdraw_amount_handler dbEmpty sessAmt amt100 =
      (dbEmpty, { sessAmt with referral_withdraw_amount := some 100
                               fsm := .waitingForWithdrawContact },
        .contactPrompt) ∧
    referral_withdraw_amount_handler dbEmpty sessAmt amt500 =
      (dbEmpty, { sessAmt with referral_withdraw_amount := some 500
                               fsm := .waitingForWithdrawContact },
        .contactPrompt) ∧
    referral_withdraw_amount_handler dbEmpty sessAmt amt50001 =
      (dbEmpty, sessAmt, .invalidAmountRange 100 500) ∧
    referral_withdraw_amount_handler dbEmpty sessAmt amt100comma5 =
      (dbEmpty, { sessAmt with referral_withdraw_amount := some (201 / 2)
                               fsm := .waitingForWithdrawContact },
        .contactPrompt) := by
  have h99 : pyFloat (normalizeAmountText amt99) = some 99 := by
    have h : pyFloat (normalizeAmountText amt99) =
        some ((99 : ℕ) : ℚ) := rfl
    rw [h]
    norm_num
  have h100 : pyFloat (normalizeAmountText amt100) = some 100 := by
    have h : pyFloat (normalizeAmountText amt100) =
        some ((100 : ℕ) : ℚ) := rfl
    rw [h]
    norm_num
  have h500 : pyFloat (normalizeAmountText amt500) = some 500 := by
    have h : pyFloat (normalizeAmountText amt500) =
        some ((500 : ℕ) : ℚ) := rfl
    rw [h]
    norm_num
  have h50001 : pyFloat (normalizeAmountText amt50001) =
      some (50001 / 100) := by
    have h : pyFloat (normalizeAmountText amt50001) =
        some (((500 : ℕ) : ℚ) + ((1 : ℕ) : ℚ) / 10 ^ 2) := rfl
    rw [h]
    norm_num
  have h1005 : pyFloat (normalizeAmountText amt100comma5) =
      some (201 / 2) := by
    have h : pyFloat (normalizeAmountText amt100comma5) =
        some (((100 : ℕ) : ℚ) + ((5 : ℕ) : ℚ) / 10 ^ 1) := rfl
    rw [h]
    norm_num
  refine ⟨amount_handler_parse_fail, amount_handler_out_of_range,
    amount_handler_advance, ?_, ?_, ?_, ?_, ?_⟩
  · exact (amount_handler_out_of_range dbEmpty sessAmt amt99 99 h99
      (by left; norm_num [sessAmt])).trans rfl
  · exact (amount_handler_advance dbEmpty sessAmt amt100 100 h100
      (by norm_num [sessAmt])).trans rfl
  · exact (amount_handler_advance dbEmpty sessAmt amt500 500 h500
      (by norm_num [sessAmt])).trans rfl
  · exact (amount_handler_out_of_range dbEmpty sessAmt amt50001
      (50001 / 100) h50001 (by right; norm_num [sessAmt])).trans rfl
  · exact (amount_handler_advance dbEmpty sessAmt amt100comma5 (201 / 2)
      h1005 (by norm_num [sessAmt])).trans rfl

/-- C6 witness: an unparseable concrete text re-prompts with the
invalid-amount message. -/
theorem C6_witness :
    referral_withdraw_amount_handler dbEmpty sessAmt helloContact =
      (dbEmpty, sessAmt, .invalidAmount) :=
  C6_amended.1 dbEmpty sessAmt helloContact rfl

/-! ### C7 — admin queue pagination -/

/-- The code's total-pages expression equals `max 1 ⌈t/5⌉`. -/
theorem total_pages_eq_ceil (t : Nat) :
    (if t > 0 then (t + 5 - 1) / 5 else 1) = max 1 ((t + 4) / 5) := by
  cases t with
  | zero => decide
  | succ n =>
      rw [if_pos (Nat.succ_pos _)]
      have h1 : 1 ≤ (n + 1 + 4) / 5 := by
        rw [Nat.one_le_div_iff (by norm_num)]
        omega
      have : n + 1 + 5 - 1 = n + 1 + 4 := by omega
      rw [this]
      exact (max_eq_right h1).symm

/-- The page view `view_withdraw_requests` in closed form: the page slice of the
pending requests sorted by `created_at` descending, the pending count,
and `max 1 ⌈count/5⌉` total pages. -/
theorem view_withdraw_requests_eq (db : DB) (page : Nat) :
    view_withdraw_requests db page =
      (((sortByCreatedDesc (db.requests.filter
           (fun r => r.status == pendingStatus))).drop (page * 5)).take 5,
       (db.requests.filter (fun r => r.status == pendingStatus)).length,
       max 1 (((db.requests.filter
           (fun r => r.status == pendingStatus)).length + 4) / 5)) := by
  unfold view_withdraw_requests count_requests list_requests
  dsimp only
  rw [if_neg (show ¬pendingStatus = "" by decide),
    if_neg (show ¬pendingStatus = "" by decide)]
  rw [total_pages_eq_ceil]

/-- C7: for every store and page index, the admin queue pages over the
pending requests ordered by `created_at` descending with page size 5 and
offset `page*5`, `totalCount` is the number of pending requests, and
`totalPages = ⌈totalCount/5⌉` with a minimum of 1 when the count is 0;
the returned page is sorted; with 12 pending requests page 0 holds 5
items and `totalPages = 3`, page 2 holds 2 items, and on the empty store
page 0 is the empty list with count 0 and `totalPages = 1`. -/
theorem C7_pagination :
    (∀ db page,
      view_withdraw_requests db page =
        (((sortByCreatedDesc (db.requests.filter
             (fun r => r.status == pendingStatus))).drop (page * 5)).take 5,
         (db.requests.filter (fun r => r.status == pendingStatus)).length,
         max 1 (((db.requests.filter
             (fun r => r.status == pendingStatus)).length + 4) / 5)) ∧
      List.Sorted byCreatedDesc (view_withdraw_requests db page).1) ∧
    (view_withdraw_requests db12 0).1.length = 5 ∧
    (view_withdraw_requests db12 0).2.2 = 3 ∧
    (view_withdraw_requests db12 2).1.length = 2 ∧
    view_withdraw_requests dbEmpty 0 = ([], 0, 1) := by
  refine ⟨fun db page => ⟨view_withdraw_requests_eq db page, ?_⟩,
    rfl, rfl, rfl, by decide⟩
  rw [view_withdraw_requests_eq]
  exact List.Pairwise.sublist
    ((List.take_sublist _ _).trans (List.drop_sublist _ _))
    (List.sorted_insertionSort byCreatedDesc _)

/-! ### C8 — contact length boundary and display truncation -/

set_option maxRecDepth 4000 in
/-- C8: a trimmed contact shorter than 5 characters (e.g. length 4) is
rejected with the invalid-contact message and the dialog stays put; a
length-5 contact passes and the request is created; the store keeps the
submitted contact verbatim — a 250-character contact is stored in full —
and only the admin display truncates to 200 characters plus an ellipsis,
leaving the stored value untouched. -/
theorem C8_contact_boundary :
    (∀ db s u text, (pyStrip text).length < 5 →
      referral_withdraw_contact_handler db s u text =
        (db, s, .contactInvalid)) ∧
    (∀ db u a c st, (create_withdraw_request db u a c st).2.contact = c) ∧
    (referral_withdraw_contact_handler (dbFlow 500 1 10 0)
        (sessFlow 500 100) 1 longContact).1.requests.map
          WithdrawRequest.contact = [longContact] ∧
    (referral_withdraw_contact_handler (dbFlow 500 1 10 0)
        (sessFlow 500 100) 1 helloContact).2.2 = .requestCreated 100 ∧
    referral_withdraw_contact_handler (dbFlow 500 1 10 0)
        (sessFlow 500 100) 1 fourContact =
      (dbFlow 500 1 10 0, sessFlow 500 100, .contactInvalid) ∧
    longContact.length = 250 ∧
    format_contact_preview longContactReq =
      String.mk (longContact.data.take 200) ++ "…" ∧
    (format_contact_preview longContactReq).length = 201 ∧
    longContactReq.contact.length = 250 := by
  refine ⟨?_, fun db u a c st => rfl, rfl, rfl, rfl, rfl, rfl, rfl, rfl⟩
  intro db s u text h
  unfold referral_withdraw_contact_handler
  simp [h]

/-- C8 witness: the concrete 4-character contact is rejected with the
invalid-contact message, dialog state unchanged. -/
theorem C8_witness :
    referral_withdraw_contact_handler dbEmpty sessAmt 1 fourContact =
      (dbEmpty, sessAmt, .contactInvalid) :=
  C8_contact_boundary.1 dbEmpty sessAmt 1 fourContact (by decide)

/-! ### C9 — pay touches only the resolution fields -/

/-- C9: resolving a pending request with `pay` leaves every balance
unchanged and rewrites the request table only through the status-update
row rewrite — which sets status (`paid`), `processed_at`,
`processed_by_admin_id` and `admin_comment` and provably preserves
`amount`, `user_id`, `contact` and `created_at` of every row; those four
fields are likewise preserved by any status update (any target status)
and by request creation, which only prepends a new row. -/
theorem C9_pay_frame :
    (∀ db rid aid req, get_request_by_id db rid = some req →
      req.status = pendingStatus →
      (withdraw_request_action_handler db payAction rid aid).1.balances =
        db.balances ∧
      (withdraw_request_action_handler db payAction rid aid).1.requests =
        db.requests.map (updateRow rid paidStatus aid none db.now) ∧
      (withdraw_request_action_handler db payAction rid aid).2 =
        .markedPaid rid) ∧
    (∀ rid st aid cm now r,
      (updateRow rid st aid cm now r).user_id = r.user_id ∧
      (updateRow rid st aid cm now r).amount = r.amount ∧
      (updateRow rid st aid cm now r).contact = r.contact ∧
      (updateRow rid st aid cm now r).created_at = r.created_at) ∧
    (∀ db u a c st, (create_withdraw_request db u a c st).1.requests =
      (create_withdraw_request db u a c st).2 :: db.requests) := by
  refine ⟨?_, fun rid st aid cm now r => updateRow_immutable rid st aid
    cm now r, fun db u a c st => rfl⟩
  intro db rid aid req hreq hst
  have h1 : withdraw_request_action_handler db payAction rid aid =
      ((update_request_status db rid paidStatus aid none).1,
        .markedPaid rid) := by
    unfold withdraw_request_action_handler
    simp [hreq, hst]
  rw [h1]
  exact ⟨(update_request_status_frame db rid paidStatus aid none).1,
    update_request_status_requests db rid paidStatus aid none, rfl⟩

/-- C9 witness: paying the concrete pending request leaves the balances
untouched and rewrites the table by the row rewrite only. -/
theorem C9_witness :
    (withdraw_request_action_handler dbPend payAction 1
        (some 9)).1.balances = dbPend.balances ∧
    (withdraw_request_action_handler dbPend payAction 1
        (some 9)).1.requests =
      dbPend.requests.map (updateRow 1 paidStatus (some 9) none
        dbPend.now) ∧
    (withdraw_request_action_handler dbPend payAction 1 (some 9)).2 =
      .markedPaid 1 :=
  C9_pay_frame.1 dbPend 1 (some 9) pendReq (by decide) (by decide)

/-! ### C10 — semantics of the pending-request lookup -/

/-- C10: `get_pending_request_by_user` is total on every store state:
it returns `none` exactly when the user has no pending request, and when
it returns a request, that request belongs to the user, is pending, is
one of the stored rows, and has the greatest `created_at` among the
user's pending requests (the most recently created, by the descending
order with `limit 1`) — even in states holding several pending requests
for the user. -/
theorem C10_get_pending_semantics :
    (∀ db u, (get_pending_request_by_user db u = none ↔
      ∀ r ∈ db.requests,
        ¬(r.user_id = u ∧ r.status = pendingStatus))) ∧
    (∀ db u r, get_pending_request_by_user db u = some r →
      r ∈ db.requests ∧ r.user_id = u ∧ r.status = pendingStatus ∧
      ∀ r' ∈ db.requests, r'.user_id = u → r'.status = pendingStatus →
        r'.created_at ≤ r.created_at) := by
  constructor
  · intro db u
    unfold get_pending_request_by_user
    rw [List.head?_eq_none_iff]
    constructor
    · intro hnil r hr hP
      have hperm : List.Perm
          (sortByCreatedDesc (db.requests.filter (isPendingOf u)))
          (db.requests.filter (isPendingOf u)) :=
        List.perm_insertionSort byCreatedDesc _
      rw [hnil] at hperm
      have hfil := hperm.symm.eq_nil
      have := List.filter_eq_nil_iff.mp hfil r hr
      apply this
      simp [isPendingOf, hP.1, hP.2]
    · intro h
      have hfil : db.requests.filter (isPendingOf u) = [] := by
        rw [List.filter_eq_nil_iff]
        intro r hr hP
        apply h r hr
        simpa [isPendingOf] using hP
      rw [hfil]
      rfl
  · intro db u r h
    unfold get_pending_request_by_user at h
    cases hs : sortByCreatedDesc (db.requests.filter (isPendingOf u)) with
    | nil =>
        rw [hs] at h
        cases h
    | cons a t =>
        rw [hs] at h
        have ha : a = r := by
          cases h
          rfl
        subst ha
        have hperm : List.Perm
            (sortByCreatedDesc (db.requests.filter (isPendingOf u)))
            (db.requests.filter (isPendingOf u)) :=
          List.perm_insertionSort byCreatedDesc _
        have hmem : a ∈ db.requests.filter (isPendingOf u) := by
          apply hperm.mem_iff.mp
          rw [hs]
          exact List.mem_cons_self a t
        obtain ⟨hmemreq, hP⟩ := List.mem_filter.mp hmem
        have hP' : a.user_id = u ∧ a.status = pendingStatus := by
          simpa [isPendingOf] using hP
        refine ⟨hmemreq, hP'.1, hP'.2, ?_⟩
        intro r' hr' hu' hst'
        have hmem' : r' ∈ db.requests.filter (isPendingOf u) :=
          List.mem_filter.mpr ⟨hr', by simp [isPendingOf, hu', hst']⟩
        have hmems : r' ∈
            sortByCreatedDesc (db.requests.filter (isPendingOf u)) :=
          hperm.mem_iff.mpr hmem'
        rw [hs] at hmems
        rcases List.mem_cons.mp hmems with h1 | h2
        · rw [h1]
        · have hsort : List.Sorted byCreatedDesc
              (sortByCreatedDesc (db.requests.filter (isPendingOf u))) :=
            List.sorted_insertionSort byCreatedDesc _
          rw [hs] at hsort
          exact List.rel_of_sorted_cons hsort r' h2

/-- C10 witness: on the concrete store the lookup's result is the
stored pending request of user 7 and it dominates every pending request
of that user. -/
theorem C10_witness :
    pendReq ∈ dbPend.requests ∧ pendReq.user_id = 7 ∧
    pendReq.status = pendingStatus ∧
    ∀ r' ∈ dbPend.requests, r'.user_id = 7 → r'.status = pendingStatus →
      r'.created_at ≤ pendReq.created_at :=
  C10_get_pending_semantics.2 dbPend 7 pendReq (by decide)
